import Mathlib

/-!
Shallow embedding of the Sinkhorn solvers of src/losses/bregman_pytorch.py.

Real-valued tensors are modelled as rational-valued functions together with
explicit sizes.  The elementwise exponential and logarithm of the
floating-point implementation, and its NaN/Inf detector, are abstract
parameters rexp, rlog and isBad of the definitions; every other operation of
the source (division, sums, comparisons) is exact rational arithmetic.
While-loops are modelled with a fuel argument that always suffices because
every loop body increments the iteration counter that the guard bounds.
-/

namespace Bregman

/-- M_EPS = 1e-16, the additive guard of the source (line 4). -/
def M_EPS : ℚ := 1 / 10 ^ 16

/-- Sum of the first n values of f (a length-n tensor reduction). -/
def rsum (n : ℕ) (f : ℕ → ℚ) : ℚ := ((List.range n).map f).sum

/-- Elementwise absolute value, as torch.abs. -/
def rabs (x : ℚ) : ℚ := if x < 0 then -x else x

/-- Entry i of torch.matmul(K, v) for an na-by-nb matrix K: row i of K dot v. -/
def matvec (nb : ℕ) (K : ℕ → ℕ → ℚ) (v : ℕ → ℚ) (i : ℕ) : ℚ :=
  rsum nb (fun j => K i j * v j)

/-- Entry j of torch.matmul(u, K) for an na-by-nb matrix K: u dot column j. -/
def vecmat (na : ℕ) (u : ℕ → ℚ) (K : ℕ → ℕ → ℚ) (j : ℕ) : ℚ :=
  rsum na (fun i => u i * K i j)

/-- torch.any(torch.isnan(w)) or torch.any(torch.isinf(w)) over the first n
entries, with the float-fault detector kept abstract as isBad. -/
def badVec (isBad : ℚ → Bool) (n : ℕ) (w : ℕ → ℚ) : Bool :=
  (List.range n).any (fun i => isBad (w i))

/-- The vector update v = b / (K transposed times u + M_EPS)
(source lines 65-66; identical form at lines 161-162). -/
def knoppV (na : ℕ) (b : ℕ → ℚ) (K : ℕ → ℕ → ℚ) (u : ℕ → ℚ) : ℕ → ℚ :=
  fun j => b j / (vecmat na u K j + M_EPS)

/-- The vector update u = a / (K times v + M_EPS)
(source lines 67-68; identical form at lines 163-164). -/
def knoppU (nb : ℕ) (a : ℕ → ℚ) (K : ℕ → ℕ → ℚ) (v : ℕ → ℚ) : ℕ → ℚ :=
  fun i => a i / (matvec nb K v i + M_EPS)

/-- Loop state of sinkhorn_knopp: scaling vectors, iteration counter, the err
variable, the log err trace, and a flag recording that the numerical-fault
break of lines 70-74 fired. -/
structure KnoppState where
  u : ℕ → ℚ
  v : ℕ → ℚ
  it : ℕ
  err : ℚ
  trace : List ℚ
  diverged : Bool

/-- The kernel of the plain solver, computed once at entry:
torch.div(C, -reg) followed by torch.exp (source lines 50-52). -/
def knoppK (rexp : ℚ → ℚ) (C : ℕ → ℕ → ℚ) (reg : ℚ) : ℕ → ℕ → ℚ :=
  fun i j => rexp (C i j / (-reg))

/-- One iteration of the while loop of sinkhorn_knopp (source lines 63-90):
update v then u; on NaN/Inf roll back to the pre-update vectors and mark the
break; otherwise, when logging is on and it divides eval_freq, refresh err
from the squared marginal residual and append it to the trace; increment it. -/
def knoppBody (isBad : ℚ → Bool) (na nb : ℕ) (a b : ℕ → ℚ) (K : ℕ → ℕ → ℚ)
    (eval_freq : ℕ) (logOn : Bool) (s : KnoppState) : KnoppState :=
  let v2 := knoppV na b K s.u
  let u2 := knoppU nb a K v2
  if badVec isBad na u2 || badVec isBad nb v2 then
    { s with diverged := true }
  else if logOn && (s.it % eval_freq == 0) then
    let b_hat := fun j => vecmat na u2 K j * v2 j
    let e := rsum nb (fun j => (b j - b_hat j) * (b j - b_hat j))
    { u := u2, v := v2, it := s.it + 1, err := e, trace := s.trace ++ [e],
      diverged := false }
  else
    { u := u2, v := v2, it := s.it + 1, err := s.err, trace := s.trace,
      diverged := false }

/-- The while loop of sinkhorn_knopp: runs while err exceeds stopThr and the
iteration counter is within maxIter, and stops once the divergence break has
fired.  Fuel maxIter + 1 fully simulates the source loop. -/
def knoppLoop (isBad : ℚ → Bool) (na nb : ℕ) (a b : ℕ → ℚ) (K : ℕ → ℕ → ℚ)
    (eval_freq : ℕ) (logOn : Bool) (maxIter : ℕ) (stopThr : ℚ) :
    ℕ → KnoppState → KnoppState
  | 0, s => s
  | fuel + 1, s =>
    if s.diverged = false ∧ stopThr < s.err ∧ s.it ≤ maxIter then
      knoppLoop isBad na nb a b K eval_freq logOn maxIter stopThr fuel
        (knoppBody isBad na nb a b K eval_freq logOn s)
    else s

/-- The optional log bundle of sinkhorn_knopp (source lines 92-96). -/
structure KnoppLog where
  errs : List ℚ
  u : ℕ → ℚ
  v : ℕ → ℚ
  alpha : ℕ → ℚ
  beta : ℕ → ℚ

/-- The value returned by sinkhorn_knopp: the plan, the final loop state, and
the optional log bundle. -/
structure KnoppResult where
  P : ℕ → ℕ → ℚ
  final : KnoppState
  logOut : Option KnoppLog

/-- sinkhorn_knopp (source lines 30-103): build K = exp(C / (-reg)) once,
initialize u, v from the warm start or uniformly, iterate, and return
P = diag(u) K diag(v) with the optional log bundle. -/
def sinkhorn_knopp (rexp rlog : ℚ → ℚ) (isBad : ℚ → Bool) (na nb : ℕ)
    (a b : ℕ → ℚ) (C : ℕ → ℕ → ℚ) (reg : ℚ) (maxIter : ℕ) (stopThr : ℚ)
    (logOn : Bool) (warm_start : Option ((ℕ → ℚ) × (ℕ → ℚ)))
    (eval_freq : ℕ) : KnoppResult :=
  let K := knoppK rexp C reg
  let u0 := match warm_start with
    | some w => w.1
    | none => fun _ => (na : ℚ)⁻¹
  let v0 := match warm_start with
    | some w => w.2
    | none => fun _ => (nb : ℚ)⁻¹
  let s := knoppLoop isBad na nb a b K eval_freq logOn maxIter stopThr
    (maxIter + 1)
    { u := u0, v := v0, it := 1, err := 1, trace := [], diverged := false }
  { P := fun i j => s.u i * K i j * s.v j
    final := s
    logOut := if logOn then
        some { errs := s.trace, u := s.u, v := s.v,
               alpha := fun i => reg * rlog (s.u i + M_EPS),
               beta := fun j => reg * rlog (s.v j + M_EPS) }
      else none }

/-- update_K of the stabilized solver (source lines 130-134):
K = exp((alpha + beta - C) / reg) built from the additive potentials. -/
def update_K (rexp : ℚ → ℚ) (C : ℕ → ℕ → ℚ) (reg : ℚ)
    (alpha beta : ℕ → ℚ) : ℕ → ℕ → ℚ :=
  fun i j => rexp ((alpha i + beta j - C i j) / reg)

/-- update_P of the stabilized solver (source lines 136-143): the full plan
from the potentials, absorbing log u and log v only when ab_updated is
false. -/
def update_P (rexp rlog : ℚ → ℚ) (C : ℕ → ℕ → ℚ) (reg : ℚ)
    (alpha beta u v : ℕ → ℚ) (ab_updated : Bool) : ℕ → ℕ → ℚ :=
  fun i j => rexp ((alpha i + beta j - C i j) / reg +
    if ab_updated then 0 else rlog (u i + M_EPS) + rlog (v j + M_EPS))

/-- The L1 norm u.abs().sum() over the first n entries (source line 167). -/
def absSum (n : ℕ) (w : ℕ → ℚ) : ℚ := rsum n (fun i => rabs (w i))

/-- Loop state of sinkhorn_stabilized: additive potentials, scaling vectors,
the cached kernel, the iteration counter, err and the log err trace. -/
structure StabState where
  alpha : ℕ → ℚ
  beta : ℕ → ℚ
  u : ℕ → ℚ
  v : ℕ → ℚ
  K : ℕ → ℕ → ℚ
  it : ℕ
  err : ℚ
  trace : List ℚ

/-- One iteration of the while loop of sinkhorn_stabilized (source lines
159-184): update v then u; if the L1 norm of u or of v exceeds tau, absorb
them into alpha, beta, reset u, v to uniform and rebuild K; when logging is
on and it divides eval_freq, refresh err from the column sums of the full
plan; increment it.  The source saves upre, vpre at line 160 but performs no
NaN/Inf check in this loop, so this body has no divergence branch. -/
def stabBody (rexp rlog : ℚ → ℚ) (na nb : ℕ) (a b : ℕ → ℚ)
    (C : ℕ → ℕ → ℚ) (reg tau : ℚ) (eval_freq : ℕ) (logOn : Bool)
    (s : StabState) : StabState :=
  let v2 := knoppV na b s.K s.u
  let u2 := knoppU nb a s.K v2
  let absorb : Bool := decide (tau < absSum na u2) || decide (tau < absSum nb v2)
  let alpha2 := if absorb then (fun i => s.alpha i + reg * rlog (u2 i + M_EPS))
    else s.alpha
  let beta2 := if absorb then (fun j => s.beta j + reg * rlog (v2 j + M_EPS))
    else s.beta
  let u3 := if absorb then (fun _ => (na : ℚ)⁻¹) else u2
  let v3 := if absorb then (fun _ => (nb : ℚ)⁻¹) else v2
  let K2 := if absorb then update_K rexp C reg alpha2 beta2 else s.K
  if logOn && (s.it % eval_freq == 0) then
    let P := update_P rexp rlog C reg alpha2 beta2 u3 v3 absorb
    let b_hat := fun j => rsum na (fun i => P i j)
    let e := rsum nb (fun j => (b j - b_hat j) * (b j - b_hat j))
    { alpha := alpha2, beta := beta2, u := u3, v := v3, K := K2,
      it := s.it + 1, err := e, trace := s.trace ++ [e] }
  else
    { alpha := alpha2, beta := beta2, u := u3, v := v3, K := K2,
      it := s.it + 1, err := s.err, trace := s.trace }

/-- The while loop of sinkhorn_stabilized (source line 159). -/
def stabLoop (rexp rlog : ℚ → ℚ) (na nb : ℕ) (a b : ℕ → ℚ)
    (C : ℕ → ℕ → ℚ) (reg tau : ℚ) (eval_freq : ℕ) (logOn : Bool)
    (maxIter : ℕ) (stopThr : ℚ) : ℕ → StabState → StabState
  | 0, s => s
  | fuel + 1, s =>
    if stopThr < s.err ∧ s.it ≤ maxIter then
      stabLoop rexp rlog na nb a b C reg tau eval_freq logOn maxIter stopThr
        fuel (stabBody rexp rlog na nb a b C reg tau eval_freq logOn s)
    else s

/-- The entry initialization of sinkhorn_stabilized (source lines 120-128):
alpha, beta from the warm start or zero; u, v always uniform. -/
structure StabInitData where
  alpha : ℕ → ℚ
  beta : ℕ → ℚ
  u : ℕ → ℚ
  v : ℕ → ℚ

/-- stabInit: the warm start supplies only alpha and beta; u and v are set to
the uniform vectors in both branches (source lines 120-128). -/
def stabInit (na nb : ℕ) (warm_start : Option ((ℕ → ℚ) × (ℕ → ℚ))) :
    StabInitData :=
  { alpha := match warm_start with
      | some w => w.1
      | none => fun _ => 0
    beta := match warm_start with
      | some w => w.2
      | none => fun _ => 0
    u := fun _ => (na : ℚ)⁻¹
    v := fun _ => (nb : ℚ)⁻¹ }

/-- The loop entry state of sinkhorn_stabilized: the initial vectors of
stabInit together with the kernel built from the initial potentials (source
lines 145-152). -/
def stabStart (rexp : ℚ → ℚ) (na nb : ℕ) (C : ℕ → ℕ → ℚ) (reg : ℚ)
    (warm_start : Option ((ℕ → ℚ) × (ℕ → ℚ))) : StabState :=
  let ini := stabInit na nb warm_start
  { alpha := ini.alpha, beta := ini.beta, u := ini.u, v := ini.v,
    K := update_K rexp C reg ini.alpha ini.beta, it := 1, err := 1,
    trace := [] }

/-- The value returned by sinkhorn_stabilized: the recomputed plan and the
final loop state. -/
structure StabResult where
  P : ℕ → ℕ → ℚ
  final : StabState

/-- sinkhorn_stabilized (source lines 106-198): initialize, iterate, and
recompute the plan fully from the final alpha, beta, u, v (update_P with
ab_updated = False, source line 193). -/
def sinkhorn_stabilized (rexp rlog : ℚ → ℚ) (na nb : ℕ) (a b : ℕ → ℚ)
    (C : ℕ → ℕ → ℚ) (reg : ℚ) (maxIter : ℕ) (tau stopThr : ℚ)
    (logOn : Bool) (warm_start : Option ((ℕ → ℚ) × (ℕ → ℚ)))
    (eval_freq : ℕ) : StabResult :=
  let s := stabLoop rexp rlog na nb a b C reg tau eval_freq logOn maxIter
    stopThr (maxIter + 1) (stabStart rexp na nb C reg warm_start)
  { P := update_P rexp rlog C reg s.alpha s.beta s.u s.v false
    final := s }

/-- The log bundle of sinkhorn_stabilized (source lines 186-190): the err
trace, the final u, v, and the derived dual potentials
alpha + reg log(u + M_EPS), beta + reg log(v + M_EPS). -/
structure StabLog where
  errs : List ℚ
  u : ℕ → ℚ
  v : ℕ → ℚ
  alpha : ℕ → ℚ
  beta : ℕ → ℚ

/-- The log bundle derived from a final stabilized state at regularization
reg (source lines 186-190). -/
def stabLogOf (rlog : ℚ → ℚ) (reg : ℚ) (s : StabState) : StabLog :=
  { errs := s.trace, u := s.u, v := s.v,
    alpha := fun i => s.alpha i + reg * rlog (s.u i + M_EPS),
    beta := fun j => s.beta j + reg * rlog (s.v j + M_EPS) }

/-- get_reg of sinkhorn_epsilon_scaling (source lines 211-218). -/
def get_reg (scaling_coef scaling_base : ℚ) (it : ℕ) (reg pre_reg : ℚ) : ℚ :=
  if it = 1 then scaling_coef
  else if (pre_reg - reg) * scaling_base < M_EPS then reg
  else (pre_reg - reg) * scaling_base + reg

/-- C.max() over an na-by-nb matrix with at least one entry. -/
def matMax (na nb : ℕ) (C : ℕ → ℕ → ℚ) : ℚ :=
  match (List.range na).flatMap (fun i => (List.range nb).map (fun j => C i j)) with
  | [] => 0
  | x :: xs => xs.foldl max x

/-- The resolved scaling coefficient: the supplied value, or C.max() + reg
when none was supplied (source lines 220-221). -/
def scResolved (na nb : ℕ) (C : ℕ → ℕ → ℚ) (reg : ℚ) : Option ℚ → ℚ
  | some c => c
  | none => matMax na nb C + reg

/-- Loop state of sinkhorn_epsilon_scaling.  The python variable log is a
dict when logging is on and the boolean False otherwise; it is modelled as
trace : Option (List rationals).  lastP and lastLog model the python
variables P and _log, unbound before the first outer iteration. -/
structure EpsState where
  runningReg : ℚ
  warm : Option ((ℕ → ℚ) × (ℕ → ℚ))
  lastP : Option (ℕ → ℕ → ℚ)
  lastLog : Option StabLog
  it : ℕ
  err : ℚ
  trace : Option (List ℚ)

/-- One iteration of the outer loop of sinkhorn_epsilon_scaling (source lines
232-251): step the regularization, run the stabilized solver with log=True,
refresh the warm start from its returned potentials, set err to the
primal-dual gap at the target reg, and append err to log.  The append at
source line 246 is unconditional, so when log is False it raises a
TypeError, modelled as the error case. -/
def epsBody (rexp rlog : ℚ → ℚ) (na nb : ℕ) (a b : ℕ → ℚ)
    (C : ℕ → ℕ → ℚ) (reg : ℚ) (maxInnerIter : ℕ)
    (tau scaling_base scaling_coef stopThr : ℚ) (eval_freq : ℕ)
    (s : EpsState) : Except String EpsState :=
  let rr := get_reg scaling_coef scaling_base s.it reg s.runningReg
  let res := sinkhorn_stabilized rexp rlog na nb a b C rr maxInnerIter tau
    stopThr true s.warm eval_freq
  let slog := stabLogOf rlog rr res.final
  let P := res.P
  let sumP := rsum na (fun i => rsum nb (fun j => P i j))
  let primal_val := rsum na (fun i => rsum nb (fun j => C i j * P i j))
    + reg * rsum na (fun i => rsum nb (fun j => P i j * rlog (P i j)))
    - reg * sumP
  let dual_val := rsum na (fun i => slog.alpha i * a i)
    + rsum nb (fun j => slog.beta j * b j) - reg * sumP
  let e := primal_val - dual_val
  match s.trace with
  | some t =>
    Except.ok { runningReg := rr, warm := some (slog.alpha, slog.beta),
                lastP := some P, lastLog := some slog, it := s.it + 1,
                err := e, trace := some (t ++ [e]) }
  | none => Except.error "TypeError: bool object is not subscriptable"

/-- The outer while loop of sinkhorn_epsilon_scaling (source line 232); a
raised exception propagates out of the loop. -/
def epsLoop (rexp rlog : ℚ → ℚ) (na nb : ℕ) (a b : ℕ → ℚ)
    (C : ℕ → ℕ → ℚ) (reg : ℚ) (maxInnerIter : ℕ)
    (tau scaling_base scaling_coef stopThr : ℚ) (eval_freq maxIter : ℕ) :
    ℕ → EpsState → Except String EpsState
  | 0, s => Except.ok s
  | fuel + 1, s =>
    if stopThr < s.err ∧ s.it ≤ maxIter then
      match epsBody rexp rlog na nb a b C reg maxInnerIter tau scaling_base
          scaling_coef stopThr eval_freq s with
      | Except.error e => Except.error e
      | Except.ok s2 =>
        epsLoop rexp rlog na nb a b C reg maxInnerIter tau scaling_base
          scaling_coef stopThr eval_freq maxIter fuel s2
    else Except.ok s

/-- The log bundle of sinkhorn_epsilon_scaling (source lines 253-255). -/
structure EpsLog where
  errs : List ℚ
  alpha : ℕ → ℚ
  beta : ℕ → ℚ

/-- The value returned by sinkhorn_epsilon_scaling on the non-raising paths. -/
structure EpsOutput where
  P : ℕ → ℕ → ℚ
  logOut : Option EpsLog

/-- The outer loop entry state (source lines 223-230): running_reg starts at
the resolved scaling coefficient, the warm start is overwritten with None
before the loop (line 230), P and _log are still unbound, err = 1, it = 1,
and log is an empty dict when logging is on and False otherwise. -/
def epsStart (logOn : Bool) (sc : ℚ) : EpsState :=
  { runningReg := sc, warm := none, lastP := none, lastLog := none,
    it := 1, err := 1, trace := if logOn then some [] else none }

/-- sinkhorn_epsilon_scaling (source lines 201-258).  The warm_start
parameter is discarded at line 230.  After the loop: with logging on the
code reads _log and P (a NameError when the loop never ran); with logging
off it returns P alone (again a NameError when the loop never ran). -/
def sinkhorn_epsilon_scaling (rexp rlog : ℚ → ℚ) (na nb : ℕ)
    (a b : ℕ → ℚ) (C : ℕ → ℕ → ℚ) (reg : ℚ) (maxIter maxInnerIter : ℕ)
    (tau scaling_base : ℚ) (scaling_coef : Option ℚ) (stopThr : ℚ)
    (logOn : Bool) (warm_start : Option ((ℕ → ℚ) × (ℕ → ℚ)))
    (eval_freq : ℕ) : Except String EpsOutput :=
  -- warm_start = None (source line 230): the parameter is discarded and the
  -- loop entry state of epsStart carries warm := none.
  match epsLoop rexp rlog na nb a b C reg maxInnerIter tau scaling_base
      (scResolved na nb C reg scaling_coef) stopThr eval_freq maxIter
      (maxIter + 1) (epsStart logOn (scResolved na nb C reg scaling_coef)) with
  | Except.error e => Except.error e
  | Except.ok s =>
    match s.trace with
    | some t =>
      match s.lastLog, s.lastP with
      | some L, some P =>
        Except.ok { P := P, logOut := some { errs := t, alpha := L.alpha,
                                             beta := L.beta } }
      | _, _ => Except.error "NameError: name _log is not defined"
    | none =>
      match s.lastP with
      | some P => Except.ok { P := P, logOut := none }
      | none => Except.error "NameError: name P is not defined"

/-- Read entry i of a list-represented vector, 0 out of range (never reached
once the shape asserts have passed). -/
def vecGet (l : List ℚ) : ℕ → ℚ := fun i => l.getD i 0

/-- Read entry (i, j) of a list-represented matrix. -/
def matGet (m : List (List ℚ)) : ℕ → ℕ → ℚ := fun i j => (m.getD i []).getD j 0

/-- The four entry asserts shared verbatim by the three solvers (source lines
35-38, 112-115, 206-209), on raw list-shaped inputs: returns the message of
the first failing assert, none when all pass.  The source checks
a.min() >= 0, which on the nonempty vectors guaranteed by the earlier
asserts is exactly: every entry is nonnegative. -/
def precondError (aL bL : List ℚ) (CL : List (List ℚ)) (reg : ℚ) :
    Option String :=
  let na := CL.length
  let nb := (CL.headD []).length
  if ¬ (1 ≤ na ∧ 1 ≤ nb) then some "C needs to be 2d"
  else if ¬ (aL.length = na ∧ bL.length = nb) then
    some "Shape of a or b does not match that of C"
  else if ¬ (0 < reg) then some "reg should be greater than 0"
  else if ¬ ((∀ x ∈ aL, 0 ≤ x) ∧ (∀ x ∈ bL, 0 ≤ x)) then
    some "Elements in a or b less than 0"
  else none

/-- sinkhorn_knopp on raw list inputs: the asserts run first; a violation is
a reported failure, never a computed result. -/
def sinkhorn_knopp_checked (rexp rlog : ℚ → ℚ) (isBad : ℚ → Bool)
    (aL bL : List ℚ) (CL : List (List ℚ)) (reg : ℚ) (maxIter : ℕ)
    (stopThr : ℚ) (logOn : Bool) (warm_start : Option ((ℕ → ℚ) × (ℕ → ℚ)))
    (eval_freq : ℕ) : Except String KnoppResult :=
  match precondError aL bL CL reg with
  | some e => Except.error e
  | none => Except.ok (sinkhorn_knopp rexp rlog isBad CL.length
      (CL.headD []).length (vecGet aL) (vecGet bL) (matGet CL) reg maxIter
      stopThr logOn warm_start eval_freq)

/-- sinkhorn_stabilized on raw list inputs with the entry asserts. -/
def sinkhorn_stabilized_checked (rexp rlog : ℚ → ℚ) (aL bL : List ℚ)
    (CL : List (List ℚ)) (reg : ℚ) (maxIter : ℕ) (tau stopThr : ℚ)
    (logOn : Bool) (warm_start : Option ((ℕ → ℚ) × (ℕ → ℚ)))
    (eval_freq : ℕ) : Except String StabResult :=
  match precondError aL bL CL reg with
  | some e => Except.error e
  | none => Except.ok (sinkhorn_stabilized rexp rlog CL.length
      (CL.headD []).length (vecGet aL) (vecGet bL) (matGet CL) reg maxIter
      tau stopThr logOn warm_start eval_freq)

/-- sinkhorn_epsilon_scaling on raw list inputs with the entry asserts. -/
def sinkhorn_epsilon_scaling_checked (rexp rlog : ℚ → ℚ) (aL bL : List ℚ)
    (CL : List (List ℚ)) (reg : ℚ) (maxIter maxInnerIter : ℕ)
    (tau scaling_base : ℚ) (scaling_coef : Option ℚ) (stopThr : ℚ)
    (logOn : Bool) (warm_start : Option ((ℕ → ℚ) × (ℕ → ℚ)))
    (eval_freq : ℕ) : Except String EpsOutput :=
  match precondError aL bL CL reg with
  | some e => Except.error e
  | none => sinkhorn_epsilon_scaling rexp rlog CL.length
      (CL.headD []).length (vecGet aL) (vecGet bL) (matGet CL) reg maxIter
      maxInnerIter tau scaling_base scaling_coef stopThr logOn warm_start
      eval_freq

set_option maxRecDepth 40000

/-! Helper lemmas shared by the claim theorems. -/

theorem rsum_nonneg (n : ℕ) (f : ℕ → ℚ) (h : ∀ i, 0 ≤ f i) : 0 ≤ rsum n f := by
  unfold rsum
  apply List.sum_nonneg
  intro x hx
  obtain ⟨i, _, rfl⟩ := List.mem_map.mp hx
  exact h i

theorem M_EPS_nonneg : 0 ≤ M_EPS := by norm_num [M_EPS]

theorem knoppLoop_succ (isBad : ℚ → Bool) (na nb : ℕ) (a b : ℕ → ℚ)
    (K : ℕ → ℕ → ℚ) (eval_freq : ℕ) (logOn : Bool) (maxIter : ℕ)
    (stopThr : ℚ) (fuel : ℕ) (s : KnoppState) :
    knoppLoop isBad na nb a b K eval_freq logOn maxIter stopThr (fuel + 1) s =
      if s.diverged = false ∧ stopThr < s.err ∧ s.it ≤ maxIter then
        knoppLoop isBad na nb a b K eval_freq logOn maxIter stopThr fuel
          (knoppBody isBad na nb a b K eval_freq logOn s)
      else s := rfl

theorem knoppLoop_of_diverged (isBad : ℚ → Bool) (na nb : ℕ) (a b : ℕ → ℚ)
    (K : ℕ → ℕ → ℚ) (eval_freq : ℕ) (logOn : Bool) (maxIter : ℕ)
    (stopThr : ℚ) (fuel : ℕ) (s : KnoppState) (h : s.diverged = true) :
    knoppLoop isBad na nb a b K eval_freq logOn maxIter stopThr fuel s = s := by
  cases fuel with
  | zero => rfl
  | succ fuel => rw [knoppLoop_succ, if_neg]; simp [h]

theorem epsLoop_succ (rexp rlog : ℚ → ℚ) (na nb : ℕ) (a b : ℕ → ℚ)
    (C : ℕ → ℕ → ℚ) (reg : ℚ) (maxInnerIter : ℕ)
    (tau scaling_base scaling_coef stopThr : ℚ) (eval_freq maxIter : ℕ)
    (fuel : ℕ) (s : EpsState) :
    epsLoop rexp rlog na nb a b C reg maxInnerIter tau scaling_base
        scaling_coef stopThr eval_freq maxIter (fuel + 1) s =
      if stopThr < s.err ∧ s.it ≤ maxIter then
        match epsBody rexp rlog na nb a b C reg maxInnerIter tau scaling_base
            scaling_coef stopThr eval_freq s with
        | Except.error e => Except.error e
        | Except.ok s2 =>
          epsLoop rexp rlog na nb a b C reg maxInnerIter tau scaling_base
            scaling_coef stopThr eval_freq maxIter fuel s2
      else Except.ok s := rfl

theorem epsBody_of_trace_none (rexp rlog : ℚ → ℚ) (na nb : ℕ) (a b : ℕ → ℚ)
    (C : ℕ → ℕ → ℚ) (reg : ℚ) (maxInnerIter : ℕ)
    (tau scaling_base scaling_coef stopThr : ℚ) (eval_freq : ℕ)
    (s : EpsState) (h : s.trace = none) :
    epsBody rexp rlog na nb a b C reg maxInnerIter tau scaling_base
        scaling_coef stopThr eval_freq s =
      Except.error "TypeError: bool object is not subscriptable" := by
  unfold epsBody
  rw [h]

/-- Claim C8: the stabilized solver initializes u and v to the uniform
vectors 1/na, 1/nb at entry in every case; the warm-start bundle supplies
only alpha and beta, and its presence or absence never changes the initial
u and v (source lines 120-128). -/
theorem claim_C8_stab_uniform_init (rexp : ℚ → ℚ) (na nb : ℕ)
    (C : ℕ → ℕ → ℚ) (reg : ℚ) (ws : Option ((ℕ → ℚ) × (ℕ → ℚ))) :
    (stabInit na nb ws).u = (fun _ => (na : ℚ)⁻¹) ∧
    (stabInit na nb ws).v = (fun _ => (nb : ℚ)⁻¹) ∧
    (stabStart rexp na nb C reg ws).u = (fun _ => (na : ℚ)⁻¹) ∧
    (stabStart rexp na nb C reg ws).v = (fun _ => (nb : ℚ)⁻¹) ∧
    (stabInit na nb ws).u = (stabInit na nb none).u ∧
    (stabInit na nb ws).v = (stabInit na nb none).v ∧
    (stabInit na nb ws).alpha
      = (match ws with | some w => w.1 | none => fun _ => 0) ∧
    (stabInit na nb ws).beta
      = (match ws with | some w => w.2 | none => fun _ => 0) := by
  cases ws <;> exact ⟨rfl, rfl, rfl, rfl, rfl, rfl, rfl, rfl⟩

/-- Claim C10: sinkhorn_epsilon_scaling discards its warm_start argument
(source line 230): any two calls differing only in the warm start return
identical results, the loop entry state carries no warm start, and the
first inner stabilized solve therefore starts from the zero potentials. -/
theorem claim_C10_eps_warm_start_discarded (rexp rlog : ℚ → ℚ) (na nb : ℕ)
    (a b : ℕ → ℚ) (C : ℕ → ℕ → ℚ) (reg : ℚ) (maxIter maxInnerIter : ℕ)
    (tau scaling_base : ℚ) (scaling_coef : Option ℚ) (stopThr : ℚ)
    (logOn : Bool) (ws1 ws2 : Option ((ℕ → ℚ) × (ℕ → ℚ))) (eval_freq : ℕ) :
    sinkhorn_epsilon_scaling rexp rlog na nb a b C reg maxIter maxInnerIter
        tau scaling_base scaling_coef stopThr logOn ws1 eval_freq =
      sinkhorn_epsilon_scaling rexp rlog na nb a b C reg maxIter maxInnerIter
        tau scaling_base scaling_coef stopThr logOn ws2 eval_freq ∧
    (epsStart logOn (scResolved na nb C reg scaling_coef)).warm = none ∧
    (stabInit na nb none).alpha = (fun _ => 0) ∧
    (stabInit na nb none).beta = (fun _ => 0) :=
  ⟨rfl, rfl, rfl, rfl⟩

/-- Claim C6: the epsilon-scaling schedule.  On the first outer iteration
get_reg returns scaling_coef, which defaults to max(C) + reg when not
supplied; on every later iteration it returns reg + (pre_reg - reg) times
scaling_base, except that when that decayed delta falls below M_EPS the
value snaps directly to the target reg (source lines 211-225). -/
theorem claim_C6_schedule (rexp rlog : ℚ → ℚ) (na nb : ℕ) (a b : ℕ → ℚ)
    (C : ℕ → ℕ → ℚ) (reg : ℚ) (maxInnerIter : ℕ)
    (tau scaling_base scaling_coef stopThr : ℚ) (eval_freq : ℕ) :
    (∀ pre_reg, get_reg scaling_coef scaling_base 1 reg pre_reg
      = scaling_coef) ∧
    (∀ (it : ℕ) (pre_reg : ℚ), 2 ≤ it →
      get_reg scaling_coef scaling_base it reg pre_reg =
        if (pre_reg - reg) * scaling_base < M_EPS then reg
        else reg + (pre_reg - reg) * scaling_base) ∧
    scResolved na nb C reg none = matMax na nb C + reg ∧
    (∀ c, scResolved na nb C reg (some c) = c) ∧
    (∀ (s : EpsState) (t : List ℚ), s.it = 1 → s.trace = some t →
      ∃ s2, epsBody rexp rlog na nb a b C reg maxInnerIter tau scaling_base
          scaling_coef stopThr eval_freq s = Except.ok s2 ∧
        s2.runningReg = scaling_coef) := by
  refine ⟨fun pre_reg => rfl, fun it pre_reg h2 => ?_, rfl, fun c => rfl,
    fun s t h1 ht => ?_⟩
  · unfold get_reg
    rw [if_neg (by omega)]
    split
    · rfl
    · ring
  · unfold epsBody
    rw [ht]
    exact ⟨_, rfl, by rw [h1]; rfl⟩

/-- Witness for claim C6 at concrete inputs: the recurrence at it = 2, and
one outer body step from a state at it = 1 landing on scaling_coef. -/
theorem claim_C6_schedule_witness :
    get_reg 5 (3 / 4) 2 1 5 =
      (if ((5 : ℚ) - 1) * (3 / 4) < M_EPS then 1
       else 1 + ((5 : ℚ) - 1) * (3 / 4)) ∧
    (∃ s2, epsBody (fun _ => 1) (fun _ => 0) 1 1 (fun _ => 1) (fun _ => 1)
        (fun _ _ => 0) 1 1 1000 (3 / 4) 5 (1 / 10 ^ 9) 1
        { runningReg := 5, warm := none, lastP := none, lastLog := none,
          it := 1, err := 1, trace := some [] } = Except.ok s2 ∧
      s2.runningReg = 5) :=
  ⟨(claim_C6_schedule (fun _ => 1) (fun _ => 0) 1 1 (fun _ => 1)
      (fun _ => 1) (fun _ _ => 0) 1 1 1000 (3 / 4) 5 (1 / 10 ^ 9) 1).2.1 2 5
      (by omega),
   (claim_C6_schedule (fun _ => 1) (fun _ => 0) 1 1 (fun _ => 1)
      (fun _ => 1) (fun _ _ => 0) 1 1 1000 (3 / 4) 5 (1 / 10 ^ 9) 1).2.2.2.2
      { runningReg := 5, warm := none, lastP := none, lastLog := none,
        it := 1, err := 1, trace := some [] } [] rfl rfl⟩

/-- Claim C9: with logging disabled, as soon as the outer loop of
sinkhorn_epsilon_scaling executes one iteration, the unconditional append
at source line 246 subscripts the boolean False and raises, so the solver
never reaches the log-free return path. -/
theorem claim_C9_eps_log_false_raises (rexp rlog : ℚ → ℚ) (na nb : ℕ)
    (a b : ℕ → ℚ) (C : ℕ → ℕ → ℚ) (reg : ℚ) (maxIter maxInnerIter : ℕ)
    (tau scaling_base : ℚ) (scaling_coef : Option ℚ) (stopThr : ℚ)
    (ws : Option ((ℕ → ℚ) × (ℕ → ℚ))) (eval_freq : ℕ)
    (hThr : stopThr < 1) (hIter : 1 ≤ maxIter) :
    sinkhorn_epsilon_scaling rexp rlog na nb a b C reg maxIter maxInnerIter
        tau scaling_base scaling_coef stopThr false ws eval_freq =
      Except.error "TypeError: bool object is not subscriptable" := by
  unfold sinkhorn_epsilon_scaling
  rw [epsLoop_succ, if_pos ⟨hThr, hIter⟩,
    epsBody_of_trace_none _ _ _ _ _ _ _ _ _ _ _ _ _ _ _ rfl]

/-- Witness for claim C9 at a concrete input. -/
theorem claim_C9_eps_log_false_raises_witness :
    sinkhorn_epsilon_scaling (fun _ => 1) (fun _ => 0) 1 1 (fun _ => 1)
        (fun _ => 1) (fun _ _ => 0) 1 1 1 1000 (3 / 4) none (1 / 10 ^ 9)
        false none 1 =
      Except.error "TypeError: bool object is not subscriptable" :=
  claim_C9_eps_log_false_raises (fun _ => 1) (fun _ => 0) 1 1 (fun _ => 1)
    (fun _ => 1) (fun _ _ => 0) 1 1 1 1000 (3 / 4) none (1 / 10 ^ 9) none 1
    (by norm_num) (by omega)

/-- Claim C2: in the stabilized solver, after each (u, v) update, if the L1
norm of u or of v exceeds tau then alpha is incremented by
reg log(u + M_EPS), beta by reg log(v + M_EPS), u and v are reset to the
uniform vectors, and K is rebuilt as exp((alpha + beta - C) / reg) from the
new potentials; otherwise alpha, beta and K are left unchanged that
iteration (source lines 166-173 and 130-134). -/
theorem claim_C2_stab_absorption (rexp rlog : ℚ → ℚ) (na nb : ℕ)
    (a b : ℕ → ℚ) (C : ℕ → ℕ → ℚ) (reg tau : ℚ) (eval_freq : ℕ)
    (logOn : Bool) (s : StabState) :
    (tau < absSum na (knoppU nb a s.K (knoppV na b s.K s.u)) ∨
        tau < absSum nb (knoppV na b s.K s.u) →
      (stabBody rexp rlog na nb a b C reg tau eval_freq logOn s).alpha =
        (fun i => s.alpha i +
          reg * rlog (knoppU nb a s.K (knoppV na b s.K s.u) i + M_EPS)) ∧
      (stabBody rexp rlog na nb a b C reg tau eval_freq logOn s).beta =
        (fun j => s.beta j + reg * rlog (knoppV na b s.K s.u j + M_EPS)) ∧
      (stabBody rexp rlog na nb a b C reg tau eval_freq logOn s).u =
        (fun _ => (na : ℚ)⁻¹) ∧
      (stabBody rexp rlog na nb a b C reg tau eval_freq logOn s).v =
        (fun _ => (nb : ℚ)⁻¹) ∧
      (stabBody rexp rlog na nb a b C reg tau eval_freq logOn s).K =
        (fun i j => rexp
          (((stabBody rexp rlog na nb a b C reg tau eval_freq logOn s).alpha i +
            (stabBody rexp rlog na nb a b C reg tau eval_freq logOn s).beta j -
            C i j) / reg))) ∧
    (¬ (tau < absSum na (knoppU nb a s.K (knoppV na b s.K s.u)) ∨
        tau < absSum nb (knoppV na b s.K s.u)) →
      (stabBody rexp rlog na nb a b C reg tau eval_freq logOn s).alpha =
        s.alpha ∧
      (stabBody rexp rlog na nb a b C reg tau eval_freq logOn s).beta =
        s.beta ∧
      (stabBody rexp rlog na nb a b C reg tau eval_freq logOn s).K = s.K) := by
  constructor
  · intro h
    have habs :
        (decide (tau < absSum na (knoppU nb a s.K (knoppV na b s.K s.u))) ||
          decide (tau < absSum nb (knoppV na b s.K s.u))) = true := by
      rcases h with h | h <;> simp [h]
    cases hc : (logOn && (s.it % eval_freq == 0)) <;>
      refine ⟨?_, ?_, ?_, ?_, ?_⟩ <;>
        (simp [stabBody, habs, hc]; try rfl)
  · intro h
    obtain ⟨h1, h2⟩ := not_or.mp h
    have habs :
        (decide (tau < absSum na (knoppU nb a s.K (knoppV na b s.K s.u))) ||
          decide (tau < absSum nb (knoppV na b s.K s.u))) = false := by
      simp [h1, h2]
    cases hc : (logOn && (s.it % eval_freq == 0)) <;>
      refine ⟨?_, ?_, ?_⟩ <;>
        simp [stabBody, habs, hc]

/-- Witness for claim C2 at concrete states: one absorbing update (tau = 0)
resets u to the uniform vector, one non-absorbing update (tau = 1000)
leaves alpha unchanged. -/
theorem claim_C2_stab_absorption_witness :
    (stabBody (fun _ => 1) (fun _ => 0) 1 1 (fun _ => 1) (fun _ => 1)
        (fun _ _ => 0) 1 0 1 false
        { alpha := fun _ => 0, beta := fun _ => 0, u := fun _ => 1,
          v := fun _ => 1, K := fun _ _ => 1, it := 1, err := 1,
          trace := [] }).u = (fun _ => (1 : ℚ)⁻¹) ∧
    (stabBody (fun _ => 1) (fun _ => 0) 1 1 (fun _ => 1) (fun _ => 1)
        (fun _ _ => 0) 1 1000 1 false
        { alpha := fun _ => 0, beta := fun _ => 0, u := fun _ => 1,
          v := fun _ => 1, K := fun _ _ => 1, it := 1, err := 1,
          trace := [] }).alpha = (fun _ => (0 : ℚ)) :=
  ⟨(((claim_C2_stab_absorption (fun _ => 1) (fun _ => 0) 1 1 (fun _ => 1)
      (fun _ => 1) (fun _ _ => 0) 1 0 1 false
      { alpha := fun _ => 0, beta := fun _ => 0, u := fun _ => 1,
        v := fun _ => 1, K := fun _ _ => 1, it := 1, err := 1,
        trace := [] }).1 (by with_unfolding_all decide)).2.2.1),
   (((claim_C2_stab_absorption (fun _ => 1) (fun _ => 0) 1 1 (fun _ => 1)
      (fun _ => 1) (fun _ _ => 0) 1 1000 1 false
      { alpha := fun _ => 0, beta := fun _ => 0, u := fun _ => 1,
        v := fun _ => 1, K := fun _ _ => 1, it := 1, err := 1,
        trace := [] }).2 (by with_unfolding_all decide)).1)⟩

/-- Claim C3: each outer iteration of the epsilon-scaling controller sets
err to the primal-dual duality gap at the target reg, computed from the
inner stabilized solve at the scheduled regularization and its final
(log-derived) potentials, and the outer loop runs while err exceeds stopThr
within the iteration budget (source lines 232-251). -/
theorem claim_C3_eps_duality_gap_stop (rexp rlog : ℚ → ℚ) (na nb : ℕ)
    (a b : ℕ → ℚ) (C : ℕ → ℕ → ℚ) (reg : ℚ) (maxInnerIter : ℕ)
    (tau scaling_base scaling_coef stopThr : ℚ) (eval_freq maxIter : ℕ) :
    (∀ (s : EpsState) (t : List ℚ), s.trace = some t →
      ∃ s2, epsBody rexp rlog na nb a b C reg maxInnerIter tau scaling_base
          scaling_coef stopThr eval_freq s = Except.ok s2 ∧
        s2.err =
          (let res := sinkhorn_stabilized rexp rlog na nb a b C
              (get_reg scaling_coef scaling_base s.it reg s.runningReg)
              maxInnerIter tau stopThr true s.warm eval_freq
           let slog := stabLogOf rlog
              (get_reg scaling_coef scaling_base s.it reg s.runningReg)
              res.final
           (rsum na (fun i => rsum nb (fun j => C i j * res.P i j))
             + reg *
               rsum na (fun i => rsum nb (fun j => res.P i j * rlog (res.P i j)))
             - reg * rsum na (fun i => rsum nb (fun j => res.P i j)))
           - (rsum na (fun i => slog.alpha i * a i)
             + rsum nb (fun j => slog.beta j * b j)
             - reg * rsum na (fun i => rsum nb (fun j => res.P i j))))) ∧
    (∀ (fuel : ℕ) (s : EpsState),
      epsLoop rexp rlog na nb a b C reg maxInnerIter tau scaling_base
          scaling_coef stopThr eval_freq maxIter (fuel + 1) s =
        if stopThr < s.err ∧ s.it ≤ maxIter then
          match epsBody rexp rlog na nb a b C reg maxInnerIter tau
              scaling_base scaling_coef stopThr eval_freq s with
          | Except.error e => Except.error e
          | Except.ok s2 =>
            epsLoop rexp rlog na nb a b C reg maxInnerIter tau scaling_base
              scaling_coef stopThr eval_freq maxIter fuel s2
        else Except.ok s) := by
  constructor
  · intro s t ht
    unfold epsBody
    rw [ht]
    exact ⟨_, rfl, rfl⟩
  · intro fuel s
    exact epsLoop_succ rexp rlog na nb a b C reg maxInnerIter tau
      scaling_base scaling_coef stopThr eval_freq maxIter fuel s

/-- Witness for claim C3: one outer body step from a concrete logging state
succeeds (no exception), so the characterized err assignment is reached. -/
theorem claim_C3_eps_duality_gap_stop_witness :
    (epsBody (fun _ => 1) (fun _ => 0) 1 1 (fun _ => 1) (fun _ => 1)
        (fun _ _ => 0) 1 1 1000 (3 / 4) 5 (1 / 10 ^ 9) 1
        { runningReg := 5, warm := none, lastP := none, lastLog := none,
          it := 1, err := 1, trace := some [] }).isOk = true := by
  obtain ⟨s2, h, _⟩ :=
    (claim_C3_eps_duality_gap_stop (fun _ => 1) (fun _ => 0) 1 1
      (fun _ => 1) (fun _ => 1) (fun _ _ => 0) 1 1 1000 (3 / 4) 5
      (1 / 10 ^ 9) 1 1).1
      { runningReg := 5, warm := none, lastP := none, lastLog := none,
        it := 1, err := 1, trace := some [] } [] rfl
  rw [h]
  rfl

theorem knoppBody_of_bad (isBad : ℚ → Bool) (na nb : ℕ) (a b : ℕ → ℚ)
    (K : ℕ → ℕ → ℚ) (eval_freq : ℕ) (logOn : Bool) (s : KnoppState)
    (h : (badVec isBad na (knoppU nb a K (knoppV na b K s.u)) ||
      badVec isBad nb (knoppV na b K s.u)) = true) :
    knoppBody isBad na nb a b K eval_freq logOn s =
      { s with diverged := true } := by
  simp [knoppBody, h]

/-- Claim C1 (amended): the plain solver computes K = exp(-C/reg) once at
entry; each iteration updates v to b / (K transposed u + M_EPS) and then u
to a / (K v + M_EPS) with M_EPS = 1e-16; when logging is enabled, every
eval_freq iterations it computes b_hat = (u K) scaled by v and
err = sum((b - b_hat) squared); the loop runs while err exceeds stopThr
within the budget maxIter; the returned plan is diag(u) K diag(v).  The
amendment: the periodic error evaluation is gated on the log option
(source line 76), so with logging disabled err keeps its initial value and
the loop can stop only by exhausting maxIter. -/
theorem claim_C1_knopp_algorithm (rexp rlog : ℚ → ℚ) (isBad : ℚ → Bool)
    (na nb : ℕ) (a b : ℕ → ℚ) (C : ℕ → ℕ → ℚ) (reg : ℚ) (maxIter : ℕ)
    (stopThr : ℚ) (logOn : Bool) (ws : Option ((ℕ → ℚ) × (ℕ → ℚ)))
    (eval_freq : ℕ) :
    (∀ i j, knoppK rexp C reg i j = rexp (-(C i j) / reg)) ∧
    (sinkhorn_knopp rexp rlog isBad na nb a b C reg maxIter stopThr logOn ws
        eval_freq).P =
      (fun i j =>
        (sinkhorn_knopp rexp rlog isBad na nb a b C reg maxIter stopThr
          logOn ws eval_freq).final.u i * knoppK rexp C reg i j *
        (sinkhorn_knopp rexp rlog isBad na nb a b C reg maxIter stopThr
          logOn ws eval_freq).final.v j) ∧
    M_EPS = 1 / 10 ^ 16 ∧
    (∀ s : KnoppState,
      badVec isBad nb (knoppV na b (knoppK rexp C reg) s.u) = false →
      badVec isBad na
        (knoppU nb a (knoppK rexp C reg)
          (knoppV na b (knoppK rexp C reg) s.u)) = false →
      (knoppBody isBad na nb a b (knoppK rexp C reg) eval_freq logOn s).v =
        (fun j => b j /
          (rsum na (fun i => s.u i * knoppK rexp C reg i j) + M_EPS)) ∧
      (knoppBody isBad na nb a b (knoppK rexp C reg) eval_freq logOn s).u =
        (fun i => a i /
          (rsum nb (fun j => knoppK rexp C reg i j *
            (knoppBody isBad na nb a b (knoppK rexp C reg) eval_freq logOn
              s).v j) + M_EPS)) ∧
      (knoppBody isBad na nb a b (knoppK rexp C reg) eval_freq logOn s).it =
        s.it + 1 ∧
      (logOn = true → s.it % eval_freq = 0 →
        (knoppBody isBad na nb a b (knoppK rexp C reg) eval_freq logOn
          s).err =
          rsum nb (fun j =>
            (b j - rsum na (fun i =>
              (knoppBody isBad na nb a b (knoppK rexp C reg) eval_freq logOn
                s).u i * knoppK rexp C reg i j) *
              (knoppBody isBad na nb a b (knoppK rexp C reg) eval_freq logOn
                s).v j) *
            (b j - rsum na (fun i =>
              (knoppBody isBad na nb a b (knoppK rexp C reg) eval_freq logOn
                s).u i * knoppK rexp C reg i j) *
              (knoppBody isBad na nb a b (knoppK rexp C reg) eval_freq logOn
                s).v j)) ∧
        (knoppBody isBad na nb a b (knoppK rexp C reg) eval_freq logOn
          s).trace =
          s.trace ++ [(knoppBody isBad na nb a b (knoppK rexp C reg)
            eval_freq logOn s).err]) ∧
      (logOn = false →
        (knoppBody isBad na nb a b (knoppK rexp C reg) eval_freq logOn
          s).err = s.err ∧
        (knoppBody isBad na nb a b (knoppK rexp C reg) eval_freq logOn
          s).trace = s.trace)) ∧
    (∀ (fuel : ℕ) (s : KnoppState),
      knoppLoop isBad na nb a b (knoppK rexp C reg) eval_freq logOn maxIter
          stopThr (fuel + 1) s =
        if s.diverged = false ∧ stopThr < s.err ∧ s.it ≤ maxIter then
          knoppLoop isBad na nb a b (knoppK rexp C reg) eval_freq logOn
            maxIter stopThr fuel
            (knoppBody isBad na nb a b (knoppK rexp C reg) eval_freq logOn s)
        else s) := by
  refine ⟨fun i j => by simp [knoppK, div_neg, neg_div], rfl, rfl, ?_,
    fun fuel s => rfl⟩
  intro s hbv hbu
  have hbad : (badVec isBad na
      (knoppU nb a (knoppK rexp C reg) (knoppV na b (knoppK rexp C reg) s.u))
      || badVec isBad nb (knoppV na b (knoppK rexp C reg) s.u)) = false := by
    simp [hbu, hbv]
  cases hc : (logOn && (s.it % eval_freq == 0)) with
  | false =>
    refine ⟨?_, ?_, ?_, fun hl hf => ?_, fun hl => ?_⟩
    · simp [knoppBody, hbad, hc]; try rfl
    · simp [knoppBody, hbad, hc]; try rfl
    · simp [knoppBody, hbad, hc]; try rfl
    · exfalso
      rw [hl] at hc
      simp [hf] at hc
    · constructor <;> (simp [knoppBody, hbad, hc]; try rfl)
  | true =>
    refine ⟨?_, ?_, ?_, fun hl hf => ?_, fun hl => ?_⟩
    · simp [knoppBody, hbad, hc]; try rfl
    · simp [knoppBody, hbad, hc]; try rfl
    · simp [knoppBody, hbad, hc]; try rfl
    · constructor <;> (simp [knoppBody, hbad, hc]; try rfl)
    · exfalso
      rw [hl] at hc
      simp at hc

/-- Counterexample for claim C1 as stated: na = nb = 1, a = b = (1), C = 0,
reg = 1 (so the abstract exponential value 1 agrees with exp(0)),
maxIter = 5, stopThr = 1e-9, eval_freq = 1.  With logging disabled the
solver runs all five iterations, err keeps its initial value 1 and no
residual is ever computed (empty trace), although the residual evaluated at
iteration 1 under identical inputs (the logging run) is below stopThr and
stops the loop after one iteration.  The loop therefore does not stop when
the residual falls below stopThr, refuting the unconditional reading of the
claim. -/
theorem claim_C1_knopp_algorithm_counterexample :
    (sinkhorn_knopp (fun _ => 1) (fun _ => 0) (fun _ => false) 1 1
        (fun _ => 1) (fun _ => 1) (fun _ _ => 0) 1 5 (1 / 10 ^ 9) false none
        1).final.it = 6 ∧
    (sinkhorn_knopp (fun _ => 1) (fun _ => 0) (fun _ => false) 1 1
        (fun _ => 1) (fun _ => 1) (fun _ _ => 0) 1 5 (1 / 10 ^ 9) false none
        1).final.err = 1 ∧
    (sinkhorn_knopp (fun _ => 1) (fun _ => 0) (fun _ => false) 1 1
        (fun _ => 1) (fun _ => 1) (fun _ _ => 0) 1 5 (1 / 10 ^ 9) false none
        1).final.trace = [] ∧
    (sinkhorn_knopp (fun _ => 1) (fun _ => 0) (fun _ => false) 1 1
        (fun _ => 1) (fun _ => 1) (fun _ _ => 0) 1 5 (1 / 10 ^ 9) true none
        1).final.it = 2 ∧
    (sinkhorn_knopp (fun _ => 1) (fun _ => 0) (fun _ => false) 1 1
        (fun _ => 1) (fun _ => 1) (fun _ _ => 0) 1 5 (1 / 10 ^ 9) true none
        1).final.err ≤ 1 / 10 ^ 9 := by
  with_unfolding_all decide

/-- Witness for claim C1 at a concrete state: the characterized update runs
both with logging on (iteration counter advances, trace appends) and with
logging off (err untouched). -/
theorem claim_C1_knopp_algorithm_witness :
    (knoppBody (fun _ => false) 1 1 (fun _ => 1) (fun _ => 1)
        (knoppK (fun _ => 1) (fun _ _ => 0) 1) 1 true
        { u := fun _ => 1, v := fun _ => 1, it := 1, err := 1, trace := [],
          diverged := false }).it = 1 + 1 ∧
    (knoppBody (fun _ => false) 1 1 (fun _ => 1) (fun _ => 1)
        (knoppK (fun _ => 1) (fun _ _ => 0) 1) 1 false
        { u := fun _ => 1, v := fun _ => 1, it := 1, err := 1, trace := [],
          diverged := false }).err = 1 :=
  ⟨((claim_C1_knopp_algorithm (fun _ => 1) (fun _ => 0) (fun _ => false) 1 1
      (fun _ => 1) (fun _ => 1) (fun _ _ => 0) 1 5 (1 / 10 ^ 9) true none
      1).2.2.2.1
      { u := fun _ => 1, v := fun _ => 1, it := 1, err := 1, trace := [],
        diverged := false }
      (by with_unfolding_all decide) (by with_unfolding_all decide)).2.2.1,
   (((claim_C1_knopp_algorithm (fun _ => 1) (fun _ => 0) (fun _ => false) 1 1
      (fun _ => 1) (fun _ => 1) (fun _ _ => 0) 1 5 (1 / 10 ^ 9) false none
      1).2.2.2.1
      { u := fun _ => 1, v := fun _ => 1, it := 1, err := 1, trace := [],
        diverged := false }
      (by with_unfolding_all decide)
      (by with_unfolding_all decide)).2.2.2.2 rfl).1⟩

/-- Claim C4 (amended): only the plain solver applies the numerical-fault
policy: when an entry of the freshly updated u or v is flagged, its body
rolls back to the pre-update vectors and marks the break, the loop then
terminates and the plan is built from that last finite state.  The
stabilized solver performs no such check: its saved upre, vpre are never
used and its body always advances the iteration counter regardless of any
fault predicate. -/
theorem claim_C4_fault_policy (rexp rlog : ℚ → ℚ) (isBad : ℚ → Bool)
    (na nb : ℕ) (a b : ℕ → ℚ) (C : ℕ → ℕ → ℚ) (reg tau : ℚ)
    (maxIter : ℕ) (stopThr : ℚ) (logOn : Bool) (eval_freq : ℕ) :
    (∀ s : KnoppState,
      (badVec isBad na (knoppU nb a (knoppK rexp C reg)
          (knoppV na b (knoppK rexp C reg) s.u)) ||
        badVec isBad nb (knoppV na b (knoppK rexp C reg) s.u)) = true →
      knoppBody isBad na nb a b (knoppK rexp C reg) eval_freq logOn s =
        { s with diverged := true }) ∧
    (∀ (fuel : ℕ) (s : KnoppState), s.diverged = true →
      knoppLoop isBad na nb a b (knoppK rexp C reg) eval_freq logOn maxIter
        stopThr fuel s = s) ∧
    (∀ s : StabState,
      (stabBody rexp rlog na nb a b C reg tau eval_freq logOn s).it =
        s.it + 1) ∧
    (∀ u0 v0 : ℕ → ℚ, stopThr < 1 → 1 ≤ maxIter →
      (badVec isBad na (knoppU nb a (knoppK rexp C reg)
          (knoppV na b (knoppK rexp C reg) u0)) ||
        badVec isBad nb (knoppV na b (knoppK rexp C reg) u0)) = true →
      (sinkhorn_knopp rexp rlog isBad na nb a b C reg maxIter stopThr logOn
        (some (u0, v0)) eval_freq).final.u = u0 ∧
      (sinkhorn_knopp rexp rlog isBad na nb a b C reg maxIter stopThr logOn
        (some (u0, v0)) eval_freq).final.v = v0 ∧
      (sinkhorn_knopp rexp rlog isBad na nb a b C reg maxIter stopThr logOn
        (some (u0, v0)) eval_freq).P =
        (fun i j => u0 i * knoppK rexp C reg i j * v0 j)) := by
  refine ⟨fun s h => knoppBody_of_bad _ _ _ _ _ _ _ _ _ h,
    fun fuel s h => knoppLoop_of_diverged _ _ _ _ _ _ _ _ _ _ _ _ h,
    fun s => ?_, ?_⟩
  · cases hc : (logOn && (s.it % eval_freq == 0)) <;> simp [stabBody, hc]
  · intro u0 v0 hThr hIter hbad
    have hloop : knoppLoop isBad na nb a b (knoppK rexp C reg) eval_freq
        logOn maxIter stopThr (maxIter + 1)
        { u := u0, v := v0, it := 1, err := 1, trace := [],
          diverged := false } =
        { u := u0, v := v0, it := 1, err := 1, trace := [],
          diverged := true } := by
      rw [knoppLoop_succ, if_pos,
        knoppBody_of_bad isBad na nb a b (knoppK rexp C reg) eval_freq logOn
          { u := u0, v := v0, it := 1, err := 1, trace := [],
            diverged := false } hbad]
      · exact knoppLoop_of_diverged _ _ _ _ _ _ _ _ _ _ _ _ rfl
      · exact ⟨rfl, hThr, hIter⟩
    refine ⟨?_, ?_, ?_⟩ <;> (simp only [sinkhorn_knopp]; rw [hloop])

/-- Counterexample for claim C4 as stated: a concrete stabilized run in
which the fault predicate (at least 2, an overflow-style threshold) flags
the updated u after the first iteration, yet the stabilized solver neither
terminates early (the counter reaches 4 = maxIter + 1) nor rolls back
(the final u differs from the pre-update uniform value 1): the stabilized
loop contains no NaN/Inf check. -/
theorem claim_C4_fault_policy_counterexample :
    badVec (fun q => decide (2 ≤ q)) 1
      (stabBody (fun _ => 1) (fun _ => 0) 1 1 (fun _ => 5) (fun _ => 1)
        (fun _ _ => 0) 1 1000 1 false
        (stabStart (fun _ => 1) 1 1 (fun _ _ => 0) 1 none)).u = true ∧
    (sinkhorn_stabilized (fun _ => 1) (fun _ => 0) 1 1 (fun _ => 5)
        (fun _ => 1) (fun _ _ => 0) 1 3 1000 (1 / 10 ^ 9) false none
        1).final.it = 4 ∧
    (sinkhorn_stabilized (fun _ => 1) (fun _ => 0) 1 1 (fun _ => 5)
        (fun _ => 1) (fun _ _ => 0) 1 3 1000 (1 / 10 ^ 9) false none
        1).final.u 0 ≠ 1 := by
  with_unfolding_all decide

/-- Witness for claim C4 at a concrete input: with a fault predicate that
flags everything, the plain body rolls back and the solver returns the
warm-start vectors unchanged. -/
theorem claim_C4_fault_policy_witness :
    knoppBody (fun _ => true) 1 1 (fun _ => 1) (fun _ => 1)
        (knoppK (fun _ => 1) (fun _ _ => 0) 1) 1 false
        { u := fun _ => 1, v := fun _ => 1, it := 1, err := 1, trace := [],
          diverged := false } =
      { u := fun _ => (1 : ℚ), v := fun _ => (1 : ℚ), it := 1, err := 1,
        trace := [], diverged := true } ∧
    (sinkhorn_knopp (fun _ => 1) (fun _ => 0) (fun _ => true) 1 1
        (fun _ => 1) (fun _ => 1) (fun _ _ => 0) 1 1 (1 / 10 ^ 9) false
        (some (fun _ => 1, fun _ => 1)) 1).final.u = (fun _ => (1 : ℚ)) :=
  ⟨(claim_C4_fault_policy (fun _ => 1) (fun _ => 0) (fun _ => true) 1 1
      (fun _ => 1) (fun _ => 1) (fun _ _ => 0) 1 1000 1 (1 / 10 ^ 9) false
      1).1
      { u := fun _ => 1, v := fun _ => 1, it := 1, err := 1, trace := [],
        diverged := false }
      (by with_unfolding_all decide),
   ((claim_C4_fault_policy (fun _ => 1) (fun _ => 0) (fun _ => true) 1 1
      (fun _ => 1) (fun _ => 1) (fun _ _ => 0) 1 1000 1 (1 / 10 ^ 9) false
      1).2.2.2 (fun _ => 1) (fun _ => 1) (by norm_num) (by omega)
      (by with_unfolding_all decide)).1⟩

theorem precondError_of_violation (aL bL : List ℚ) (CL : List (List ℚ))
    (reg : ℚ)
    (h : CL.length < 1 ∨ (CL.headD []).length < 1 ∨
      aL.length ≠ CL.length ∨ bL.length ≠ (CL.headD []).length ∨
      reg ≤ 0 ∨ (∃ x ∈ aL, x < 0) ∨ (∃ x ∈ bL, x < 0)) :
    ∃ e, precondError aL bL CL reg = some e := by
  unfold precondError
  by_cases h1 : 1 ≤ CL.length ∧ 1 ≤ (CL.headD []).length
  · rw [if_neg (not_not_intro h1)]
    by_cases h2 : aL.length = CL.length ∧ bL.length = (CL.headD []).length
    · rw [if_neg (not_not_intro h2)]
      by_cases h3 : 0 < reg
      · rw [if_neg (not_not_intro h3)]
        by_cases h4 : (∀ x ∈ aL, 0 ≤ x) ∧ (∀ x ∈ bL, 0 ≤ x)
        · exfalso
          rcases h with h | h | h | h | h | ⟨x, hx, hlt⟩ | ⟨x, hx, hlt⟩
          · omega
          · omega
          · exact h h2.1
          · exact h h2.2
          · exact absurd h3 (not_lt.mpr h)
          · exact absurd (h4.1 x hx) (not_le.mpr hlt)
          · exact absurd (h4.2 x hx) (not_le.mpr hlt)
        · exact ⟨_, if_pos h4⟩
      · exact ⟨_, if_pos h3⟩
    · exact ⟨_, if_pos h2⟩
  · exact ⟨_, if_pos h1⟩

/-- Claim C5: every input violating a precondition (an empty dimension of C,
a length mismatch of a or b against the shape of C, a non-positive reg, or
a negative entry of a or b) makes each of the three solvers fail with a
reported precondition failure (the assert blocks at source lines 35-38,
112-115 and 206-209, which run before any iteration), never a computed
result. -/
theorem claim_C5_preconditions (rexp rlog : ℚ → ℚ) (isBad : ℚ → Bool)
    (aL bL : List ℚ) (CL : List (List ℚ)) (reg : ℚ)
    (maxIter maxInnerIter : ℕ) (tau scaling_base : ℚ)
    (scaling_coef : Option ℚ) (stopThr : ℚ) (logOn : Bool)
    (ws : Option ((ℕ → ℚ) × (ℕ → ℚ))) (eval_freq : ℕ)
    (hviol : CL.length < 1 ∨ (CL.headD []).length < 1 ∨
      aL.length ≠ CL.length ∨ bL.length ≠ (CL.headD []).length ∨
      reg ≤ 0 ∨ (∃ x ∈ aL, x < 0) ∨ (∃ x ∈ bL, x < 0)) :
    (∃ e, sinkhorn_knopp_checked rexp rlog isBad aL bL CL reg maxIter
      stopThr logOn ws eval_freq = Except.error e) ∧
    (∃ e, sinkhorn_stabilized_checked rexp rlog aL bL CL reg maxIter tau
      stopThr logOn ws eval_freq = Except.error e) ∧
    (∃ e, sinkhorn_epsilon_scaling_checked rexp rlog aL bL CL reg maxIter
      maxInnerIter tau scaling_base scaling_coef stopThr logOn ws eval_freq
      = Except.error e) := by
  obtain ⟨e, he⟩ := precondError_of_violation aL bL CL reg hviol
  exact ⟨⟨e, by simp [sinkhorn_knopp_checked, he]⟩,
    ⟨e, by simp [sinkhorn_stabilized_checked, he]⟩,
    ⟨e, by simp [sinkhorn_epsilon_scaling_checked, he]⟩⟩

/-- Witness for claim C5 at a concrete violating input: a = (-1) has a
negative entry, so all three checked solvers report a failure. -/
theorem claim_C5_preconditions_witness :
    (∃ e, sinkhorn_knopp_checked (fun _ => 1) (fun _ => 0) (fun _ => false)
      [(-1 : ℚ)] [1] [[0]] 1 1 (1 / 10 ^ 9) false none 1
      = Except.error e) ∧
    (∃ e, sinkhorn_stabilized_checked (fun _ => 1) (fun _ => 0) [(-1 : ℚ)]
      [1] [[0]] 1 1 1000 (1 / 10 ^ 9) false none 1 = Except.error e) ∧
    (∃ e, sinkhorn_epsilon_scaling_checked (fun _ => 1) (fun _ => 0)
      [(-1 : ℚ)] [1] [[0]] 1 1 1 1000 (3 / 4) none (1 / 10 ^ 9) false none 1
      = Except.error e) :=
  claim_C5_preconditions (fun _ => 1) (fun _ => 0) (fun _ => false)
    [(-1 : ℚ)] [1] [[0]] 1 1 1 1000 (3 / 4) none (1 / 10 ^ 9) false none 1
    (by with_unfolding_all decide)

theorem knoppV_nonneg (na : ℕ) (b : ℕ → ℚ) (K : ℕ → ℕ → ℚ) (u : ℕ → ℚ)
    (hb : ∀ j, 0 ≤ b j) (hK : ∀ i j, 0 ≤ K i j) (hu : ∀ i, 0 ≤ u i) :
    ∀ j, 0 ≤ knoppV na b K u j := by
  intro j
  unfold knoppV
  refine div_nonneg (hb j) (add_nonneg ?_ M_EPS_nonneg)
  exact rsum_nonneg na (fun i => u i * K i j)
    (fun i => mul_nonneg (hu i) (hK i j))

theorem knoppU_nonneg (nb : ℕ) (a : ℕ → ℚ) (K : ℕ → ℕ → ℚ) (v : ℕ → ℚ)
    (ha : ∀ i, 0 ≤ a i) (hK : ∀ i j, 0 ≤ K i j) (hv : ∀ j, 0 ≤ v j) :
    ∀ i, 0 ≤ knoppU nb a K v i := by
  intro i
  unfold knoppU
  refine div_nonneg (ha i) (add_nonneg ?_ M_EPS_nonneg)
  exact rsum_nonneg nb (fun j => K i j * v j)
    (fun j => mul_nonneg (hK i j) (hv j))

theorem knoppBody_nonneg (isBad : ℚ → Bool) (na nb : ℕ) (a b : ℕ → ℚ)
    (K : ℕ → ℕ → ℚ) (eval_freq : ℕ) (logOn : Bool) (s : KnoppState)
    (ha : ∀ i, 0 ≤ a i) (hb : ∀ j, 0 ≤ b j) (hK : ∀ i j, 0 ≤ K i j)
    (hu : ∀ i, 0 ≤ s.u i) (hv : ∀ j, 0 ≤ s.v j) :
    (∀ i, 0 ≤ (knoppBody isBad na nb a b K eval_freq logOn s).u i) ∧
    (∀ j, 0 ≤ (knoppBody isBad na nb a b K eval_freq logOn s).v j) := by
  have hv2 := knoppV_nonneg na b K s.u hb hK hu
  have hu2 := knoppU_nonneg nb a K (knoppV na b K s.u) ha hK hv2
  cases hbad : (badVec isBad na (knoppU nb a K (knoppV na b K s.u)) ||
      badVec isBad nb (knoppV na b K s.u)) with
  | true =>
    refine ⟨fun i => ?_, fun j => ?_⟩ <;> simp [knoppBody, hbad]
    · exact hu i
    · exact hv j
  | false =>
    cases hc : (logOn && (s.it % eval_freq == 0)) with
    | true =>
      refine ⟨fun i => ?_, fun j => ?_⟩ <;> simp [knoppBody, hbad, hc]
      · exact hu2 i
      · exact hv2 j
    | false =>
      refine ⟨fun i => ?_, fun j => ?_⟩ <;> simp [knoppBody, hbad, hc]
      · exact hu2 i
      · exact hv2 j

theorem knoppLoop_nonneg (isBad : ℚ → Bool) (na nb : ℕ) (a b : ℕ → ℚ)
    (K : ℕ → ℕ → ℚ) (eval_freq : ℕ) (logOn : Bool) (maxIter : ℕ)
    (stopThr : ℚ) (fuel : ℕ) (s : KnoppState)
    (ha : ∀ i, 0 ≤ a i) (hb : ∀ j, 0 ≤ b j) (hK : ∀ i j, 0 ≤ K i j)
    (hu : ∀ i, 0 ≤ s.u i) (hv : ∀ j, 0 ≤ s.v j) :
    (∀ i, 0 ≤ (knoppLoop isBad na nb a b K eval_freq logOn maxIter stopThr
      fuel s).u i) ∧
    (∀ j, 0 ≤ (knoppLoop isBad na nb a b K eval_freq logOn maxIter stopThr
      fuel s).v j) := by
  induction fuel generalizing s with
  | zero => exact ⟨hu, hv⟩
  | succ fuel ih =>
    rw [knoppLoop_succ]
    split
    · obtain ⟨hu2, hv2⟩ :=
        knoppBody_nonneg isBad na nb a b K eval_freq logOn s ha hb hK hu hv
      exact ih _ hu2 hv2
    · exact ⟨hu, hv⟩

/-- Claim C7: for valid inputs (nonnegative marginals, nonnegative kernel
values of the abstract exponential, positive reg) the plan returned by the
plain solver and by the stabilized solver has no negative entry.  In this
exact rational embedding every entry is a rational number, so elementwise
finiteness is inherent to the model; the substantive content is
nonnegativity. -/
theorem claim_C7_plan_nonneg (rexp rlog : ℚ → ℚ) (isBad : ℚ → Bool)
    (na nb : ℕ) (a b : ℕ → ℚ) (C : ℕ → ℕ → ℚ) (reg : ℚ) (maxIter : ℕ)
    (tau stopThr : ℚ) (logOn : Bool)
    (ws ws2 : Option ((ℕ → ℚ) × (ℕ → ℚ))) (eval_freq : ℕ)
    (hrexp : ∀ x, 0 ≤ rexp x) (ha : ∀ i, 0 ≤ a i) (hb : ∀ j, 0 ≤ b j)
    (hws : ∀ w ∈ ws, (∀ i, 0 ≤ w.1 i) ∧ (∀ j, 0 ≤ w.2 j)) :
    (∀ i j, 0 ≤ (sinkhorn_knopp rexp rlog isBad na nb a b C reg maxIter
      stopThr logOn ws eval_freq).P i j) ∧
    (∀ i j, 0 ≤ (sinkhorn_stabilized rexp rlog na nb a b C reg maxIter tau
      stopThr logOn ws2 eval_freq).P i j) := by
  have hK : ∀ i j, 0 ≤ knoppK rexp C reg i j := fun i j => hrexp _
  constructor
  · intro i j
    have hinit : (∀ i, 0 ≤ (match ws with
        | some w => w.1
        | none => fun _ => (na : ℚ)⁻¹) i) ∧
        (∀ j, 0 ≤ (match ws with
        | some w => w.2
        | none => fun _ => (nb : ℚ)⁻¹) j) := by
      cases ws with
      | none =>
        exact ⟨fun i => inv_nonneg.mpr (Nat.cast_nonneg na),
          fun j => inv_nonneg.mpr (Nat.cast_nonneg nb)⟩
      | some w =>
        exact ⟨fun i => (hws w rfl).1 i, fun j => (hws w rfl).2 j⟩
    obtain ⟨hu, hv⟩ := knoppLoop_nonneg isBad na nb a b (knoppK rexp C reg)
      eval_freq logOn maxIter stopThr (maxIter + 1)
      { u := match ws with
          | some w => w.1
          | none => fun _ => (na : ℚ)⁻¹,
        v := match ws with
          | some w => w.2
          | none => fun _ => (nb : ℚ)⁻¹,
        it := 1, err := 1, trace := [], diverged := false }
      ha hb hK hinit.1 hinit.2
    exact mul_nonneg (mul_nonneg (hu i) (hK i j)) (hv j)
  · intro i j
    exact hrexp _

/-- Witness for claim C7 at a concrete valid input. -/
theorem claim_C7_plan_nonneg_witness :
    0 ≤ (sinkhorn_knopp (fun _ => 1) (fun _ => 0) (fun _ => false) 1 1
      (fun _ => 1) (fun _ => 1) (fun _ _ => 0) 1 2 (1 / 10 ^ 9) false none
      1).P 0 0 ∧
    0 ≤ (sinkhorn_stabilized (fun _ => 1) (fun _ => 0) 1 1 (fun _ => 1)
      (fun _ => 1) (fun _ _ => 0) 1 2 1000 (1 / 10 ^ 9) false none
      1).P 0 0 :=
  ⟨(claim_C7_plan_nonneg (fun _ => 1) (fun _ => 0) (fun _ => false) 1 1
      (fun _ => 1) (fun _ => 1) (fun _ _ => 0) 1 2 1000 (1 / 10 ^ 9) false
      none none 1 (fun x => zero_le_one) (fun i => zero_le_one)
      (fun j => zero_le_one) (by simp)).1 0 0,
   (claim_C7_plan_nonneg (fun _ => 1) (fun _ => 0) (fun _ => false) 1 1
      (fun _ => 1) (fun _ => 1) (fun _ _ => 0) 1 2 1000 (1 / 10 ^ 9) false
      none none 1 (fun x => zero_le_one) (fun i => zero_le_one)
      (fun j => zero_le_one) (by simp)).2 0 0⟩

end Bregman
